import Mathlib

/-!
Verification development for the langchain-pinecone client/server app.

The Python sources under `server/` are shallowly embedded here:
pure request/response logic becomes Lean functions, the external Pinecone
index becomes an explicit association list of vector entries carried in a
`VectorStoreManager` state record, fallible operations return
`Except String`, and external oracles (the embedding scorer, file readers,
the text splitter, `secure_filename`, uuid and timestamps) are parameters.
-/

namespace LangchainPinecone

/-- A LangChain document: page content plus string-valued metadata
(embedding of `langchain_core.documents.Document`). -/
structure Document where
  page_content : String
  metadata : List (String × String)
deriving DecidableEq, Repr

/-- Lookup of a metadata key, mirroring Python dict access. -/
def lookupMeta (d : Document) (key : String) : Option String :=
  (d.metadata.find? (fun p => p.1 == key)).map Prod.snd

/-- Pinecone metadata filters used by this code base: no filter,
exact-match on a key, and the not-equal filter written as a $ne clause. -/
inductive MetaFilter where
  | noFilter : MetaFilter
  | eqF (key val : String) : MetaFilter
  | neF (key val : String) : MetaFilter
deriving DecidableEq, Repr

/-- Whether the metadata of a document satisfies a filter.  A missing key
satisfies a $ne clause (it is not equal to the given value). -/
def matchesFilter : MetaFilter → Document → Bool
  | .noFilter, _ => true
  | .eqF k v, d => decide (lookupMeta d k = some v)
  | .neF k v, d => decide (¬ lookupMeta d k = some v)

/-- State of one Pinecone index: the create-time dimension, the stats the
service would report, and the stored vectors as (vector id, document). -/
structure IndexData where
  dimension : Nat
  index_fullness : Nat
  namespaces : List (String × Nat)
  entries : List (String × Document)
deriving DecidableEq, Repr

/-- Embedding of `VectorStoreManager` (server/models/vector_store.py).
`pcIndexes` is the Pinecone project state (index name to index data),
`index_name` is config PINECONE_INDEX_NAME, `score` is the external
similarity oracle (query text and document to a score), and
`vector_store` records whether `self.vector_store` is set (connected). -/
structure VectorStoreManager where
  pcIndexes : List (String × IndexData)
  index_name : String
  score : String → Document → Int
  vector_store : Bool

/-- The index data that the configured index name of the manager refers to. -/
def getIndexData (m : VectorStoreManager) : Option IndexData :=
  (m.pcIndexes.find? (fun p => p.1 == m.index_name)).map Prod.snd

/-- The stored vectors of the configured index (empty when absent). -/
def getIndexEntries (m : VectorStoreManager) : List (String × Document) :=
  ((getIndexData m).map IndexData.entries).getD []

/-- Insertion step of the rank ordering used to model top-k retrieval. -/
def insertRanked {α : Type} (le : α → α → Bool) (x : α) : List α → List α
  | [] => [x]
  | y :: ys => if le x y then x :: y :: ys else y :: insertRanked le x ys

/-- Rank a list by the boolean relation `le` (insertion sort). -/
def sortRanked {α : Type} (le : α → α → Bool) : List α → List α
  | [] => []
  | x :: xs => insertRanked le x (sortRanked le xs)

/-- The top-k query of the external index: keep the documents matching the
filter, rank them by descending score against the query, take `k`. -/
def pineconeTopK (m : VectorStoreManager) (query : String) (k : Nat)
    (filter : MetaFilter) : List Document :=
  let docs := ((getIndexEntries m).map Prod.snd).filter (fun d => matchesFilter filter d)
  (sortRanked (fun a b => decide (m.score query b ≤ m.score query a)) docs).take k

/-- The external `similarity_search_with_score` call: top-k documents
paired with their scores. -/
def similarity_search_with_score (m : VectorStoreManager) (query : String)
    (k : Nat) (filter : MetaFilter) : List (Document × Int) :=
  (pineconeTopK m query k filter).map (fun d => (d, m.score query d))

/-- Embedding of `VectorStoreManager.similarity_search`. -/
def VectorStoreManager.similarity_search (m : VectorStoreManager)
    (query : String) (k : Nat) (filter : MetaFilter) :
    Except String (List (Document × Int)) :=
  if m.vector_store = false then .error "Vector store not initialized"
  else .ok (similarity_search_with_score m query k filter)

/-- Embedding of `VectorStoreManager.find_similar_documents`: fetch one
chunk with the given doc_id, then search with the content of the
reference chunk under a not-this-doc_id filter asking for k+1 and truncating. -/
def VectorStoreManager.find_similar_documents (m : VectorStoreManager)
    (doc_id : String) (k : Nat) : Except String (List (Document × Int)) :=
  if m.vector_store = false then .error "Vector store not initialized"
  else
    match pineconeTopK m "" 1 (.eqF "doc_id" doc_id) with
    | [] => .error ("Document with ID " ++ doc_id ++ " not found")
    | ref :: _ =>
      match m.similarity_search ref.page_content (k + 1) (.neF "doc_id" doc_id) with
      | .error e => .error e
      | .ok results => .ok (results.take k)

/-- Replace the stored vectors of the configured index. -/
def setEntries (m : VectorStoreManager) (es : List (String × Document)) :
    VectorStoreManager :=
  { m with pcIndexes :=
      m.pcIndexes.map fun p =>
        if p.1 == m.index_name then (p.1, { p.2 with entries := es }) else p }

/-- The vectors of the configured index whose metadata doc_id equals the
given one (the filter-query delete_document performs). -/
def docIdMatches (m : VectorStoreManager) (doc_id : String) :
    List (String × Document) :=
  (getIndexEntries m).filter (fun e => matchesFilter (.eqF "doc_id" doc_id) e.2)

/-- Embedding of `VectorStoreManager.delete_document`: filter-query up to
10000 matches; `false` when none, else bulk delete by id and `true`.
Returns the updated manager state alongside the boolean. -/
def VectorStoreManager.delete_document (m : VectorStoreManager)
    (doc_id : String) : Except String (Bool × VectorStoreManager) :=
  if m.vector_store = false then .error "Vector store not initialized"
  else
    let query_matches := (docIdMatches m doc_id).take 10000
    if query_matches.isEmpty then .ok (false, m)
    else
      let ids_to_delete := query_matches.map Prod.fst
      .ok (true, setEntries m
        ((getIndexEntries m).filter (fun e => decide (¬ e.1 ∈ ids_to_delete))))

/-- Embedding of `VectorStoreManager.add_documents`: upsert the documents
under fresh vector ids (id generation is external; modelled as counter
based names) and return the ids. -/
def VectorStoreManager.add_documents (m : VectorStoreManager)
    (documents : List Document) :
    Except String (List String × VectorStoreManager) :=
  if m.vector_store = false then .error "Vector store not initialized"
  else
    let start := (getIndexEntries m).length
    let ids := (List.range documents.length).map (fun i => "vec-" ++ toString (start + i))
    .ok (ids, setEntries m (getIndexEntries m ++ ids.zip documents))

/-- One row of the list_documents response. -/
structure DocSummary where
  doc_id : String
  filename : String
  upload_time : String
  chunk_count : Nat
deriving DecidableEq, Repr

/-- The per-match accumulation step of list_documents: group by the
doc_id metadata, counting chunks, defaulting filename and upload time. -/
def addListMatch (acc : List DocSummary) (d : Document) : List DocSummary :=
  match lookupMeta d "doc_id" with
  | none => acc
  | some did =>
    if acc.any (fun s => s.doc_id == did) then
      acc.map (fun s => if s.doc_id == did then { s with chunk_count := s.chunk_count + 1 } else s)
    else
      acc ++ [{ doc_id := did,
                filename := (lookupMeta d "filename").getD "Unknown",
                upload_time := (lookupMeta d "upload_time").getD "Unknown",
                chunk_count := 1 }]

/-- Embedding of `VectorStoreManager.list_documents`: sample up to 100
vectors of the index (the dummy-vector query) and group them by doc_id. -/
def VectorStoreManager.list_documents (m : VectorStoreManager) :
    Except String (List DocSummary) :=
  if m.vector_store = false then .error "Vector store not initialized"
  else
    let sample := ((getIndexEntries m).map Prod.snd).take 100
    .ok (sample.foldl addListMatch [])

/-- The stats record returned by get_stats. -/
structure IndexStats where
  total_vectors : Nat
  dimension : Nat
  index_fullness : Nat
  namespaces : List (String × Nat)
deriving DecidableEq, Repr

/-- Embedding of `VectorStoreManager.get_stats`: pass-through of the
statistics reported by the index. -/
def VectorStoreManager.get_stats (m : VectorStoreManager) :
    Except String IndexStats :=
  if m.vector_store = false then .error "Vector store not initialized"
  else
    match getIndexData m with
    | none => .ok { total_vectors := 0, dimension := 0, index_fullness := 0, namespaces := [] }
    | some idx => .ok { total_vectors := idx.entries.length, dimension := idx.dimension,
                        index_fullness := idx.index_fullness, namespaces := idx.namespaces }

/-- Embedding of `VectorStoreManager.init_index`: create the index only
when the configured name is absent, then connect the vector store.  The
boolean reports whether a create operation was performed. -/
def VectorStoreManager.init_index (m : VectorStoreManager) (dimension : Nat) :
    VectorStoreManager × Bool :=
  let existing := m.pcIndexes.map Prod.fst
  if m.index_name ∈ existing then
    ({ m with vector_store := true }, false)
  else
    ({ m with
        pcIndexes := m.pcIndexes ++
          [(m.index_name, { dimension := dimension, index_fullness := 0,
                            namespaces := [], entries := [] })],
        vector_store := true }, true)

/-- Minimal JSON value model for response bodies. -/
inductive JsonVal where
  | str (s : String) : JsonVal
  | num (n : Int) : JsonVal
  | jbool (b : Bool) : JsonVal
  | arr (items : List JsonVal) : JsonVal
  | obj (fields : List (String × JsonVal)) : JsonVal
  | null : JsonVal

/-- Field lookup on a JSON object (none on other shapes). -/
def getField : JsonVal → String → Option JsonVal
  | .obj fields, key => (fields.find? (fun p => p.1 == key)).map Prod.snd
  | _, _ => none

/-- Whether a JSON value is an object carrying the given field. -/
def hasField (j : JsonVal) (key : String) : Bool :=
  (getField j key).isSome

/-- An HTTP response: status code and JSON body. -/
structure HttpResponse where
  status : Nat
  body : JsonVal

/-- Parsed body of POST /api/search; absent fields are `none`
(`data.get` defaults are applied by the route). -/
structure SearchRequest where
  query : Option String
  k : Option Nat
  filter : Option MetaFilter

/-- Response-shaping of one (document, score) search result. -/
def formatResult (r : Document × Int) : JsonVal :=
  .obj [("content", .str r.1.page_content),
        ("metadata", .obj (r.1.metadata.map (fun p => (p.1, .str p.2)))),
        ("similarity_score", .num r.2)]

/-- Embedding of the POST /api/search route (server/routes/search.py,
`search_documents`).  `body = none` models a missing or empty JSON body. -/
def search_documents (m : VectorStoreManager) (body : Option SearchRequest) :
    HttpResponse :=
  match body with
  | none => ⟨400, .obj [("error", .str "Query is required")]⟩
  | some data =>
    match data.query with
    | none => ⟨400, .obj [("error", .str "Query is required")]⟩
    | some q =>
      match m.similarity_search q (data.k.getD 5) (data.filter.getD .noFilter) with
      | .error e => ⟨500, .obj [("error", .str ("Search failed: " ++ e))]⟩
      | .ok results =>
        ⟨200, .obj [("success", .jbool true),
                    ("query", .str q),
                    ("results", .arr (results.map formatResult)),
                    ("total_results", .num results.length)]⟩

/-- Parsed body of POST /api/search/similar. -/
structure SimilarRequest where
  doc_id : Option String
  k : Option Nat

/-- Embedding of the POST /api/search/similar route
(server/routes/search.py, `find_similar_documents`). -/
def find_similar_documents_route (m : VectorStoreManager)
    (body : Option SimilarRequest) : HttpResponse :=
  match body with
  | none => ⟨400, .obj [("error", .str "Document ID is required")]⟩
  | some data =>
    match data.doc_id with
    | none => ⟨400, .obj [("error", .str "Document ID is required")]⟩
    | some did =>
      match m.find_similar_documents did (data.k.getD 5) with
      | .error e =>
        ⟨500, .obj [("error", .str ("Failed to find similar documents: " ++ e))]⟩
      | .ok results =>
        ⟨200, .obj [("success", .jbool true),
                    ("reference_doc_id", .str did),
                    ("similar_documents", .arr (results.map formatResult)),
                    ("total_results", .num results.length)]⟩

/-- Embedding of the DELETE /api/documents/doc_id route
(server/routes/documents.py, `delete_document`).  Returns the response
and the manager state after the request. -/
def delete_document_route (m : VectorStoreManager) (doc_id : String) :
    HttpResponse × VectorStoreManager :=
  match m.delete_document doc_id with
  | .error e => (⟨500, .obj [("error", .str ("Failed to delete document: " ++ e))]⟩, m)
  | .ok (success, m1) =>
    if success then
      (⟨200, .obj [("success", .jbool true),
                   ("message", .str ("Document " ++ doc_id ++ " deleted successfully"))]⟩, m1)
    else
      (⟨404, .obj [("error", .str "Document not found")]⟩, m1)

/-- The allowed upload extensions (config default ALLOWED_EXTENSIONS). -/
def ALLOWED_EXTENSIONS : List String := ["pdf", "txt", "docx", "xlsx"]

/-- ASCII lowercasing of a string, character by character (the behaviour
of the Python lower call on the extensions this code compares). -/
def lowerStr (s : String) : String :=
  ⟨s.data.map Char.toLower⟩

/-- The raw text after the last dot of a filename
(Python `filename.rsplit(".", 1)[1]`; meaningful when a dot exists). -/
def lastExtRaw (filename : String) : String :=
  ⟨(filename.data.reverse.takeWhile (fun c => decide (¬ c = '.'))).reverse⟩

/-- The lowercased extension after the last dot. -/
def lastExt (filename : String) : String :=
  lowerStr (lastExtRaw filename)

/-- Embedding of `allowed_file` (server/routes/documents.py).  The dot
test is the Python membership test on the characters of the filename. -/
def allowed_file (filename : String) : Bool :=
  filename.data.contains '.' && decide (lastExt filename ∈ ALLOWED_EXTENSIONS)

/-- An xlsx workbook: sheets of rows of cells (a `none` cell is empty). -/
structure Workbook where
  sheets : List (String × List (List (Option String)))

/-- External file-reading oracles for `load_document`: each returns the
raw content the corresponding library call would produce, or the message
of the exception it would raise (ImportError or a read failure). -/
structure FileEnv where
  readTxt : String → Except String String
  readPdfPages : String → Except String (List String)
  readDocxParas : String → Except String (List String)
  readXlsxBook : String → Except String Workbook

/-- Tab-joined text of one xlsx row (`str(cell) if cell is not None else ""`). -/
def xlsxRowText (row : List (Option String)) : String :=
  String.intercalate "\t" (row.map (fun c => c.getD ""))

/-- The text block produced for one worksheet. -/
def xlsxSheetText (name : String) (rows : List (List (Option String))) : String :=
  "Sheet: " ++ name ++ "\n" ++ String.join (rows.map (fun r => xlsxRowText r ++ "\n")) ++ "\n"

/-- The concatenated content of a workbook. -/
def xlsxContent (wb : Workbook) : String :=
  String.join (wb.sheets.map (fun s => xlsxSheetText s.1 s.2))

/-- Embedding of `load_document` (server/routes/documents.py): dispatch
on the lowercased extension; every in-branch failure, including the
unsupported-type error, is wrapped by the outer handler into a load
error carrying the original message.  A filename without a dot raises
an unhandled IndexError before the handler. -/
def load_document (env : FileEnv) (file_path filename : String) :
    Except String (List Document) :=
  if filename.data.contains '.' = false then .error "IndexError: list index out of range"
  else
    let file_ext := lastExt filename
    let result : Except String (List Document) :=
      if file_ext = "txt" then
        (env.readTxt file_path).map (fun content =>
          [⟨content, [("source", file_path)]⟩])
      else if file_ext = "pdf" then
        (env.readPdfPages file_path).map (fun pages =>
          ((pages.enum).filter (fun p => decide (¬ p.2.trim = ""))).map
            (fun p => ⟨p.2, [("source", file_path), ("page", toString p.1)]⟩))
      else if file_ext = "docx" then
        (env.readDocxParas file_path).map (fun paras =>
          [⟨String.intercalate "\n" paras, [("source", file_path)]⟩])
      else if file_ext = "xlsx" then
        (env.readXlsxBook file_path).map (fun wb =>
          [⟨xlsxContent wb, [("source", file_path)]⟩])
      else .error ("Unsupported file type: " ++ file_ext)
    match result with
    | .ok docs => .ok docs
    | .error e => .error ("Error loading " ++ file_ext ++ " file: " ++ e)

/-- The files currently on disk (the part of the filesystem the upload
route touches). -/
structure FsState where
  files : List String
deriving DecidableEq, Repr

/-- Save a file to disk. -/
def FsState.addFile (fs : FsState) (path : String) : FsState :=
  ⟨fs.files ++ [path]⟩

/-- Remove a path if present (`if os.path.exists: os.remove`). -/
def FsState.removeFile (fs : FsState) (path : String) : FsState :=
  ⟨fs.files.filter (fun p => decide (¬ p = path))⟩

/-- The multipart upload request: whether a file part is present, and
the client-supplied filename. -/
structure UploadRequest where
  hasFile : Bool
  filename : String

/-- External oracles of the upload route: the file readers, the werkzeug
`secure_filename` function, the text splitter, the generated uuid and timestamp,
and the `VectorStoreManager()` the handler would construct. -/
structure UploadEnv where
  fileEnv : FileEnv
  secure : String → String
  splitChunks : List Document → List Document
  doc_id : String
  upload_time : String
  manager : VectorStoreManager

/-- Which externally visible effects a run of the upload route made. -/
structure UploadTrace where
  saved_temp : Bool
  manager_constructed : Bool
  add_documents_called : Bool
deriving DecidableEq, Repr

/-- Outcome of the upload route: response, final filesystem, effect
trace, and final manager state. -/
structure UploadResult where
  response : HttpResponse
  fs : FsState
  trace : UploadTrace
  manager : VectorStoreManager

/-- Dict-update of chunk metadata with the upload-time keys. -/
def updateMeta (md : List (String × String)) (doc_id filename upload_time : String) :
    List (String × String) :=
  md.filter (fun p => decide (¬ (p.1 = "doc_id" ∨ p.1 = "filename" ∨ p.1 = "upload_time")))
    ++ [("doc_id", doc_id), ("filename", filename), ("upload_time", upload_time)]

/-- The processing phase of the upload route (the code from `file.save`
through the try/finally): save to a temp path, load and split, tag
metadata, store, and always delete the temp file in the finally block. -/
def upload_process (env : UploadEnv) (req : UploadRequest) (fs : FsState) :
    UploadResult :=
  let filename := env.secure req.filename
  let temp_path := "/tmp/" ++ env.doc_id ++ "_" ++ filename
  let fs1 := fs.addFile temp_path
  match load_document env.fileEnv temp_path filename with
  | .error e =>
    ⟨⟨500, .obj [("error", .str ("Failed to process document: " ++ e))]⟩,
      fs1.removeFile temp_path, ⟨true, false, false⟩, env.manager⟩
  | .ok documents =>
    let texts := (env.splitChunks documents).map (fun t =>
      ⟨t.page_content, updateMeta t.metadata env.doc_id filename env.upload_time⟩)
    match env.manager.add_documents texts with
    | .error e =>
      ⟨⟨500, .obj [("error", .str ("Failed to process document: " ++ e))]⟩,
        fs1.removeFile temp_path, ⟨true, true, true⟩, env.manager⟩
    | .ok (_, m1) =>
      ⟨⟨201, .obj [("success", .jbool true),
                   ("doc_id", .str env.doc_id),
                   ("filename", .str filename),
                   ("chunks_created", .num texts.length),
                   ("message", .str "Document processed and stored successfully")]⟩,
        fs1.removeFile temp_path, ⟨true, true, true⟩, m1⟩

/-- Embedding of the POST /api/documents route
(server/routes/documents.py, `upload_document`): validate the request,
then run the processing phase. -/
def upload_document (env : UploadEnv) (req : UploadRequest) (fs : FsState) :
    UploadResult :=
  if req.hasFile = false then
    ⟨⟨400, .obj [("error", .str "No file provided")]⟩, fs, ⟨false, false, false⟩, env.manager⟩
  else if req.filename = "" then
    ⟨⟨400, .obj [("error", .str "No file selected")]⟩, fs, ⟨false, false, false⟩, env.manager⟩
  else if allowed_file req.filename = false then
    ⟨⟨400, .obj [("error", .str "File type not allowed")]⟩, fs, ⟨false, false, false⟩, env.manager⟩
  else
    upload_process env req fs

/-- File oracles in which every read fails. -/
def emptyFileEnv : FileEnv :=
  ⟨fun _ => .error "missing", fun _ => .error "missing",
   fun _ => .error "missing", fun _ => .error "missing"⟩

/-- A manager whose vector store was never connected. -/
def mUninit : VectorStoreManager :=
  ⟨[], "langchain-documents", fun _ _ => 0, false⟩

/-- Sample chunk of document doc-a. -/
def docA : Document := ⟨"alpha content", [("doc_id", "doc-a"), ("filename", "a.txt")]⟩

/-- Sample chunk of document doc-b. -/
def docB : Document := ⟨"beta content", [("doc_id", "doc-b"), ("filename", "b.txt")]⟩

/-- Sample chunk of document doc-c. -/
def docC : Document := ⟨"gamma content", [("doc_id", "doc-c"), ("filename", "c.txt")]⟩

/-- A sample index holding one chunk of each sample document. -/
def idxSample : IndexData :=
  ⟨1536, 0, [], [("v1", docA), ("v2", docB), ("v3", docC)]⟩

/-- A connected manager over the sample index; the score oracle ranks by
content length so that evaluation is concrete. -/
def mSample : VectorStoreManager :=
  ⟨[("langchain-documents", idxSample)], "langchain-documents",
   fun _ d => Int.ofNat d.page_content.length, true⟩

/-- A connected manager over an empty index. -/
def mEmptyInit : VectorStoreManager :=
  ⟨[("langchain-documents", ⟨1536, 0, [], []⟩)], "langchain-documents",
   fun _ _ => 0, true⟩

/-- An upload environment whose file reads fail and whose store is the
uninitialized manager. -/
def envFail : UploadEnv :=
  ⟨emptyFileEnv, id, id, "uuid-1", "2026-10-12T00:00:00", mUninit⟩

/-- The POST /api/search/similar body naming an absent document. -/
def reqMissing : SimilarRequest := ⟨some "missing-doc", none⟩

/-- A well-formed POST /api/search body. -/
def reqSearch : SearchRequest := ⟨some "hello", some 2, none⟩

theorem mem_insertRanked {α : Type} (le : α → α → Bool) (a x : α) (l : List α) :
    x ∈ insertRanked le a l ↔ x = a ∨ x ∈ l := by
  induction l with
  | nil => simp [insertRanked]
  | cons y ys ih =>
    simp only [insertRanked]
    by_cases h : le a y
    · simp [if_pos h, List.mem_cons]
    · simp only [if_neg h, List.mem_cons, ih]
      tauto

theorem mem_sortRanked {α : Type} (le : α → α → Bool) (x : α) (l : List α) :
    x ∈ sortRanked le l ↔ x ∈ l := by
  induction l with
  | nil => simp [sortRanked]
  | cons y ys ih => simp [sortRanked, mem_insertRanked, ih]

theorem matches_of_mem_pineconeTopK (m : VectorStoreManager) (q : String)
    (k : Nat) (f : MetaFilter) (d : Document) :
    d ∈ pineconeTopK m q k f → matchesFilter f d = true := by
  intro hd
  simp only [pineconeTopK] at hd
  have hmem := List.mem_of_mem_take hd
  rw [mem_sortRanked] at hmem
  exact List.of_mem_filter hmem

theorem filter_map_snd (p : Document → Bool) (l : List (String × Document)) :
    (l.map Prod.snd).filter p = (l.filter (fun e => p e.2)).map Prod.snd := by
  induction l with
  | nil => rfl
  | cons a t ih =>
    by_cases h : p a.2
    · simp [List.filter_cons, h, ih]
    · simp [List.filter_cons, h, ih]

theorem not_mem_removeFile (fs : FsState) (p : String) :
    ¬ p ∈ (fs.removeFile p).files := by
  intro h
  have := List.of_mem_filter h
  simp at this

theorem delete_document_none (m : VectorStoreManager) (doc_id : String)
    (hv : m.vector_store = true) (hempty : docIdMatches m doc_id = []) :
    m.delete_document doc_id = .ok (false, m) := by
  unfold VectorStoreManager.delete_document
  simp [hv, hempty]

theorem delete_route_none (m : VectorStoreManager) (doc_id : String)
    (hv : m.vector_store = true) (hempty : docIdMatches m doc_id = []) :
    delete_document_route m doc_id =
      (⟨404, .obj [("error", .str "Document not found")]⟩, m) := by
  unfold delete_document_route
  rw [delete_document_none m doc_id hv hempty]
  rfl

theorem take_isEmpty_eq (l : List (String × Document)) :
    (l.take 10000).isEmpty = l.isEmpty := by
  cases l <;> rfl

/-- C1: whenever find_similar_documents succeeds, the result holds no
entry whose metadata doc_id equals the reference doc_id, and it holds at
most k entries even though k+1 were requested internally. -/
theorem find_similar_documents_spec (m : VectorStoreManager) (doc_id : String)
    (k : Nat) (results : List (Document × Int))
    (h : m.find_similar_documents doc_id k = .ok results) :
    results.length ≤ k ∧ ∀ r ∈ results, ¬ lookupMeta r.1 "doc_id" = some doc_id := by
  unfold VectorStoreManager.find_similar_documents at h
  by_cases hv : m.vector_store = false
  · rw [if_pos hv] at h
    exact absurd h (by simp)
  · rw [if_neg hv] at h
    cases href : pineconeTopK m "" 1 (.eqF "doc_id" doc_id) with
    | nil =>
      rw [href] at h
      exact absurd h (by simp)
    | cons ref rest =>
      have hv2 : m.vector_store = true := by simpa using hv
      rw [href] at h
      unfold VectorStoreManager.similarity_search at h
      rw [hv2] at h
      simp only [Bool.true_eq_false, if_false, Except.ok.injEq] at h
      subst h
      constructor
      · exact List.length_take_le _ _
      · intro r hr
        have hr2 := List.mem_of_mem_take hr
        simp only [similarity_search_with_score, List.mem_map] at hr2
        obtain ⟨d, hd, rfl⟩ := hr2
        have hm := matches_of_mem_pineconeTopK _ _ _ _ _ hd
        simp only [matchesFilter, decide_eq_true_eq] at hm
        exact hm

/-- Witness for C1 at the sample store: similar to doc-a with k = 2. -/
theorem find_similar_documents_spec_witness :
    ([(docC, (13 : Int)), (docB, (12 : Int))] : List (Document × Int)).length ≤ 2 ∧
    ∀ r ∈ ([(docC, (13 : Int)), (docB, (12 : Int))] : List (Document × Int)),
      ¬ lookupMeta r.1 "doc_id" = some "doc-a" :=
  find_similar_documents_spec mSample "doc-a" 2 [(docC, 13), (docB, 12)] rfl

/-- C2: deleting a doc_id with zero matching vectors returns false and
the DELETE route answers 404 with an error body; with at least one match
it returns true and the route answers 200 with success and message. -/
theorem delete_document_spec (m : VectorStoreManager) (doc_id : String)
    (hv : m.vector_store = true) :
    (docIdMatches m doc_id = [] →
      m.delete_document doc_id = .ok (false, m) ∧
      (delete_document_route m doc_id).1.status = 404 ∧
      getField (delete_document_route m doc_id).1.body "error" =
        some (.str "Document not found")) ∧
    (¬ docIdMatches m doc_id = [] →
      (∃ m1, m.delete_document doc_id = .ok (true, m1)) ∧
      (delete_document_route m doc_id).1.status = 200 ∧
      hasField (delete_document_route m doc_id).1.body "success" = true ∧
      hasField (delete_document_route m doc_id).1.body "message" = true) := by
  constructor
  · intro hempty
    refine ⟨delete_document_none m doc_id hv hempty, ?_, ?_⟩
    · rw [delete_route_none m doc_id hv hempty]
    · rw [delete_route_none m doc_id hv hempty]
      rfl
  · intro hne
    have hie : ((docIdMatches m doc_id).take 10000).isEmpty = false := by
      rw [take_isEmpty_eq]
      cases hq : docIdMatches m doc_id with
      | nil => exact absurd hq hne
      | cons a t => rfl
    have hdel : m.delete_document doc_id = .ok (true, setEntries m
        ((getIndexEntries m).filter
          (fun e => decide (¬ e.1 ∈ ((docIdMatches m doc_id).take 10000).map Prod.fst)))) := by
      unfold VectorStoreManager.delete_document
      simp [hv, hie]
    have hroute : delete_document_route m doc_id =
        (⟨200, .obj [("success", .jbool true),
                     ("message", .str ("Document " ++ doc_id ++ " deleted successfully"))]⟩,
         setEntries m ((getIndexEntries m).filter
          (fun e => decide (¬ e.1 ∈ ((docIdMatches m doc_id).take 10000).map Prod.fst)))) := by
      unfold delete_document_route
      rw [hdel]
      rfl
    refine ⟨⟨_, hdel⟩, ?_, ?_, ?_⟩ <;> rw [hroute] <;> rfl

/-- Witness for C2: no match for doc-x (404), one match for doc-a (200). -/
theorem delete_document_spec_witness :
    (mSample.delete_document "doc-x" = .ok (false, mSample) ∧
     (delete_document_route mSample "doc-x").1.status = 404 ∧
     getField (delete_document_route mSample "doc-x").1.body "error" =
       some (.str "Document not found")) ∧
    ((∃ m1, mSample.delete_document "doc-a" = .ok (true, m1)) ∧
     (delete_document_route mSample "doc-a").1.status = 200 ∧
     hasField (delete_document_route mSample "doc-a").1.body "success" = true ∧
     hasField (delete_document_route mSample "doc-a").1.body "message" = true) := by
  constructor
  · exact (delete_document_spec mSample "doc-x" rfl).1 (by decide)
  · exact (delete_document_spec mSample "doc-a" rfl).2 (by decide)

/-- C4 counterexample: POST /api/search/similar with a doc_id matching no
stored chunk responds 500, not 404, on an initialized empty store. -/
theorem similar_route_missing_is_500_counterexample :
    (find_similar_documents_route mEmptyInit (some reqMissing)).status = 500 ∧
    ¬ (find_similar_documents_route mEmptyInit (some reqMissing)).status = 404 :=
  ⟨rfl, by decide⟩

/-- C4 amended: a missing document yields 404 only at the DELETE
endpoint; POST /api/search/similar with a doc_id matching no stored
chunk responds 500 with an error body. -/
theorem missing_document_responses (m : VectorStoreManager) (doc_id : String)
    (kOpt : Option Nat) (hv : m.vector_store = true)
    (hempty : docIdMatches m doc_id = []) :
    (find_similar_documents_route m (some ⟨some doc_id, kOpt⟩)).status = 500 ∧
    hasField (find_similar_documents_route m (some ⟨some doc_id, kOpt⟩)).body "error" = true ∧
    (delete_document_route m doc_id).1.status = 404 := by
  have htop : pineconeTopK m "" 1 (.eqF "doc_id" doc_id) = [] := by
    simp only [pineconeTopK]
    rw [filter_map_snd]
    rw [docIdMatches] at hempty
    rw [hempty]
    rfl
  have hfind : m.find_similar_documents doc_id (kOpt.getD 5) =
      .error ("Document with ID " ++ doc_id ++ " not found") := by
    unfold VectorStoreManager.find_similar_documents
    simp [hv, htop]
  have hroute : find_similar_documents_route m (some ⟨some doc_id, kOpt⟩) =
      ⟨500, .obj [("error", .str ("Failed to find similar documents: " ++
        ("Document with ID " ++ doc_id ++ " not found")))]⟩ := by
    have hstep : find_similar_documents_route m (some ⟨some doc_id, kOpt⟩) =
        (match m.find_similar_documents doc_id (kOpt.getD 5) with
         | .error e =>
           ⟨500, .obj [("error", .str ("Failed to find similar documents: " ++ e))]⟩
         | .ok results =>
           ⟨200, .obj [("success", .jbool true),
                       ("reference_doc_id", .str doc_id),
                       ("similar_documents", .arr (results.map formatResult)),
                       ("total_results", .num results.length)]⟩) := rfl
    rw [hstep, hfind]
  refine ⟨?_, ?_, ?_⟩
  · rw [hroute]
  · rw [hroute]; rfl
  · rw [delete_route_none m doc_id hv hempty]

/-- Witness for the amended C4 at the empty initialized store. -/
theorem missing_document_responses_witness :
    (find_similar_documents_route mEmptyInit (some ⟨some "missing-doc", none⟩)).status = 500 ∧
    hasField (find_similar_documents_route mEmptyInit
      (some ⟨some "missing-doc", none⟩)).body "error" = true ∧
    (delete_document_route mEmptyInit "missing-doc").1.status = 404 :=
  missing_document_responses mEmptyInit "missing-doc" none rfl (by decide)

/-- C3: every Vector Store Manager operation (add_documents,
similarity_search, find_similar_documents, delete_document,
list_documents, get_stats) fails with the not-initialized error whenever
the vector store is uninitialized, for every argument value. -/
theorem uninitialized_store_fails (m : VectorStoreManager)
    (h : m.vector_store = false) :
    (∀ docs, m.add_documents docs = .error "Vector store not initialized") ∧
    (∀ q k f, m.similarity_search q k f = .error "Vector store not initialized") ∧
    (∀ did k, m.find_similar_documents did k = .error "Vector store not initialized") ∧
    (∀ did, m.delete_document did = .error "Vector store not initialized") ∧
    (m.list_documents = .error "Vector store not initialized") ∧
    (m.get_stats = .error "Vector store not initialized") := by
  refine ⟨?_, ?_, ?_, ?_, ?_, ?_⟩
  · intro docs; simp [VectorStoreManager.add_documents, h]
  · intro q k f; simp [VectorStoreManager.similarity_search, h]
  · intro did k; simp [VectorStoreManager.find_similar_documents, h]
  · intro did; simp [VectorStoreManager.delete_document, h]
  · simp [VectorStoreManager.list_documents, h]
  · simp [VectorStoreManager.get_stats, h]

/-- Witness for C3 at the concrete uninitialized manager. -/
theorem uninitialized_store_fails_witness :
    (mUninit.add_documents [docA] = .error "Vector store not initialized") ∧
    (mUninit.similarity_search "q" 5 .noFilter = .error "Vector store not initialized") ∧
    (mUninit.find_similar_documents "doc-a" 5 = .error "Vector store not initialized") ∧
    (mUninit.delete_document "doc-a" = .error "Vector store not initialized") ∧
    (mUninit.list_documents = .error "Vector store not initialized") ∧
    (mUninit.get_stats = .error "Vector store not initialized") := by
  have h := uninitialized_store_fails mUninit rfl
  exact ⟨h.1 [docA], h.2.1 "q" 5 .noFilter, h.2.2.1 "doc-a" 5,
         h.2.2.2.1 "doc-a", h.2.2.2.2.1, h.2.2.2.2.2⟩

/-- C9: init_index creates the index exactly when the configured name is
absent, and a second call after a first one performs no create operation
and leaves the set of indexes unchanged. -/
theorem init_index_idempotent (m : VectorStoreManager) (d1 d2 : Nat) :
    ((m.init_index d1).2 = true ↔ ¬ m.index_name ∈ m.pcIndexes.map Prod.fst) ∧
    ((m.init_index d1).1.init_index d2).2 = false ∧
    ((m.init_index d1).1.init_index d2).1.pcIndexes = (m.init_index d1).1.pcIndexes := by
  by_cases hm : m.index_name ∈ m.pcIndexes.map Prod.fst
  · simp [VectorStoreManager.init_index, hm]
  · simp [VectorStoreManager.init_index, hm]

/-- C10: allowed_file rejects every filename without a dot, and accepts a
filename whose extension after the last dot differs from an allowed
extension only in letter case. -/
theorem allowed_file_spec (filename : String) :
    (filename.data.contains '.' = false → allowed_file filename = false) ∧
    (filename.data.contains '.' = true →
      (∃ a ∈ ALLOWED_EXTENSIONS, lowerStr (lastExtRaw filename) = lowerStr a) →
      allowed_file filename = true) := by
  constructor
  · intro h
    have h2 : ¬ '.' ∈ filename.data := by simpa using h
    simp [allowed_file, h2]
  · rintro hdot ⟨a, ha, hcase⟩
    have hdot2 : '.' ∈ filename.data := by simpa using hdot
    have hlow : lowerStr a = a := by
      simp only [ALLOWED_EXTENSIONS, List.mem_cons, List.not_mem_nil, or_false] at ha
      rcases ha with rfl | rfl | rfl | rfl <;> decide
    have hext : lastExt filename = a := by
      rw [lastExt, hcase, hlow]
    simp [allowed_file, hdot2, hext, ha]

/-- Witness for C10: a dotless name is rejected, an upper-case variant of
an allowed extension is accepted. -/
theorem allowed_file_spec_witness :
    allowed_file "READMEmd" = false ∧ allowed_file "Report.PDF" = true := by
  constructor
  · exact (allowed_file_spec "READMEmd").1 (by decide)
  · exact (allowed_file_spec "Report.PDF").2 (by decide) ⟨"pdf", by decide, by decide⟩

/-- C5: load_document fails with the unsupported-type error for any
extension outside txt, pdf, docx, xlsx, and for each supported extension
it wraps an underlying read failure in a load error whose message
carries the original message. -/
theorem load_document_error_spec (env : FileEnv) (file_path filename : String)
    (hdot : filename.data.contains '.' = true) :
    (¬ lastExt filename ∈ (["txt", "pdf", "docx", "xlsx"] : List String) →
      load_document env file_path filename =
        .error ("Error loading " ++ lastExt filename ++ " file: " ++
          ("Unsupported file type: " ++ lastExt filename))) ∧
    (∀ e, lastExt filename = "txt" → env.readTxt file_path = .error e →
      load_document env file_path filename =
        .error ("Error loading " ++ lastExt filename ++ " file: " ++ e)) ∧
    (∀ e, lastExt filename = "pdf" → env.readPdfPages file_path = .error e →
      load_document env file_path filename =
        .error ("Error loading " ++ lastExt filename ++ " file: " ++ e)) ∧
    (∀ e, lastExt filename = "docx" → env.readDocxParas file_path = .error e →
      load_document env file_path filename =
        .error ("Error loading " ++ lastExt filename ++ " file: " ++ e)) ∧
    (∀ e, lastExt filename = "xlsx" → env.readXlsxBook file_path = .error e →
      load_document env file_path filename =
        .error ("Error loading " ++ lastExt filename ++ " file: " ++ e)) := by
  have hdot2 : '.' ∈ filename.data := by simpa using hdot
  refine ⟨?_, ?_, ?_, ?_, ?_⟩
  · intro hmem
    simp only [List.mem_cons, List.not_mem_nil, or_false, not_or] at hmem
    obtain ⟨ht, hp, hd, hx⟩ := hmem
    unfold load_document
    simp [hdot2, ht, hp, hd, hx]
  · intro e hext herr
    unfold load_document
    simp [hdot2, hext, herr, Except.map]
  · intro e hext herr
    unfold load_document
    simp [hdot2, hext, herr, Except.map]
  · intro e hext herr
    unfold load_document
    simp [hdot2, hext, herr, Except.map]
  · intro e hext herr
    unfold load_document
    simp [hdot2, hext, herr, Except.map]

/-- Witness for C5: an exe upload is rejected as unsupported, a txt read
failure is wrapped with the original message. -/
theorem load_document_error_spec_witness :
    load_document emptyFileEnv "/tmp/f.exe" "f.exe" =
      .error ("Error loading " ++ lastExt "f.exe" ++ " file: " ++
        ("Unsupported file type: " ++ lastExt "f.exe")) ∧
    load_document emptyFileEnv "/tmp/f.txt" "f.txt" =
      .error ("Error loading " ++ lastExt "f.txt" ++ " file: " ++ "missing") := by
  constructor
  · exact (load_document_error_spec emptyFileEnv "/tmp/f.exe" "f.exe" (by decide)).1
      (by decide)
  · exact (load_document_error_spec emptyFileEnv "/tmp/f.txt" "f.txt" (by decide)).2.1
      "missing" (by decide) rfl

theorem upload_process_cleanup (env : UploadEnv) (req : UploadRequest) (fs : FsState) :
    (upload_process env req fs).trace.saved_temp = true ∧
    (upload_process env req fs).fs =
      (fs.addFile ("/tmp/" ++ env.doc_id ++ "_" ++ env.secure req.filename)).removeFile
        ("/tmp/" ++ env.doc_id ++ "_" ++ env.secure req.filename) := by
  unfold upload_process
  cases hld : load_document env.fileEnv
      ("/tmp/" ++ env.doc_id ++ "_" ++ env.secure req.filename)
      (env.secure req.filename) with
  | error e => simp [hld]
  | ok documents =>
    cases hadd : env.manager.add_documents ((env.splitChunks documents).map (fun t =>
        ⟨t.page_content, updateMeta t.metadata env.doc_id (env.secure req.filename)
          env.upload_time⟩)) with
    | error e => simp [hld, hadd]
    | ok p => simp [hld, hadd]

/-- C6: once a valid upload reaches the processing phase the temp file
is saved and then removed on every path, success or failure. -/
theorem upload_cleanup (env : UploadEnv) (req : UploadRequest) (fs : FsState)
    (h1 : req.hasFile = true) (h2 : ¬ req.filename = "")
    (h3 : allowed_file req.filename = true) :
    (upload_document env req fs).trace.saved_temp = true ∧
    ¬ ("/tmp/" ++ env.doc_id ++ "_" ++ env.secure req.filename) ∈
      (upload_document env req fs).fs.files := by
  have hif : upload_document env req fs = upload_process env req fs := by
    unfold upload_document
    rw [h1, h3]
    simp [h2]
  rw [hif]
  obtain ⟨htr, hfs⟩ := upload_process_cleanup env req fs
  refine ⟨htr, ?_⟩
  rw [hfs]
  exact not_mem_removeFile _ _

/-- Witness for C6: a txt upload whose load fails still removes the
temp file. -/
theorem upload_cleanup_witness :
    (upload_document envFail ⟨true, "notes.txt"⟩ ⟨[]⟩).trace.saved_temp = true ∧
    ¬ ("/tmp/" ++ envFail.doc_id ++ "_" ++ envFail.secure "notes.txt") ∈
      (upload_document envFail ⟨true, "notes.txt"⟩ ⟨[]⟩).fs.files :=
  upload_cleanup envFail ⟨true, "notes.txt"⟩ ⟨[]⟩ rfl (by decide) (by decide)

/-- C7: a disallowed extension is rejected with 400 before the file is
saved, before any Vector Store Manager is constructed, and with no
embedding or index call and no state change. -/
theorem upload_rejects_disallowed (env : UploadEnv) (req : UploadRequest)
    (fs : FsState) (h1 : req.hasFile = true) (h2 : ¬ req.filename = "")
    (h3 : allowed_file req.filename = false) :
    upload_document env req fs =
      ⟨⟨400, .obj [("error", .str "File type not allowed")]⟩, fs,
        ⟨false, false, false⟩, env.manager⟩ := by
  unfold upload_document
  simp [h1, h2, h3]

/-- Witness for C7: an exe upload is rejected with no effects. -/
theorem upload_rejects_disallowed_witness :
    upload_document envFail ⟨true, "malware.exe"⟩ ⟨[]⟩ =
      ⟨⟨400, .obj [("error", .str "File type not allowed")]⟩, ⟨[]⟩,
        ⟨false, false, false⟩, envFail.manager⟩ :=
  upload_rejects_disallowed envFail ⟨true, "malware.exe"⟩ ⟨[]⟩ rfl (by decide) (by decide)

/-- C8: POST /api/search answers 400 when the body is absent or lacks a
query; on an initialized store it answers 200 with total_results equal
to the length of the results list, whose entries carry content, metadata
and similarity_score fields. -/
theorem search_route_spec (m : VectorStoreManager) (body : Option SearchRequest) :
    ((body = none ∨ ∃ r, body = some r ∧ r.query = none) →
      (search_documents m body).status = 400) ∧
    (∀ r q, body = some r → r.query = some q → m.vector_store = true →
      (search_documents m body).status = 200 ∧
      getField (search_documents m body).body "results" =
        some (.arr ((similarity_search_with_score m q (r.k.getD 5)
          (r.filter.getD .noFilter)).map formatResult)) ∧
      getField (search_documents m body).body "total_results" =
        some (.num (((similarity_search_with_score m q (r.k.getD 5)
          (r.filter.getD .noFilter)).map formatResult).length)) ∧
      ∀ x ∈ (similarity_search_with_score m q (r.k.getD 5)
          (r.filter.getD .noFilter)).map formatResult,
        hasField x "content" = true ∧ hasField x "metadata" = true ∧
        hasField x "similarity_score" = true) := by
  constructor
  · rintro (rfl | ⟨r, rfl, hq⟩)
    · rfl
    · have hstep : search_documents m (some r) =
          (match r.query with
           | none => ⟨400, .obj [("error", .str "Query is required")]⟩
           | some q =>
             match m.similarity_search q (r.k.getD 5) (r.filter.getD .noFilter) with
             | .error e => ⟨500, .obj [("error", .str ("Search failed: " ++ e))]⟩
             | .ok results =>
               ⟨200, .obj [("success", .jbool true),
                           ("query", .str q),
                           ("results", .arr (results.map formatResult)),
                           ("total_results", .num results.length)]⟩) := rfl
      rw [hstep, hq]
  · rintro r q rfl hq hv
    have hsearch : m.similarity_search q (r.k.getD 5) (r.filter.getD .noFilter) =
        .ok (similarity_search_with_score m q (r.k.getD 5) (r.filter.getD .noFilter)) := by
      unfold VectorStoreManager.similarity_search
      rw [hv]
      rfl
    have hstep : search_documents m (some r) =
        (match r.query with
         | none => ⟨400, .obj [("error", .str "Query is required")]⟩
         | some q =>
           match m.similarity_search q (r.k.getD 5) (r.filter.getD .noFilter) with
           | .error e => ⟨500, .obj [("error", .str ("Search failed: " ++ e))]⟩
           | .ok results =>
             ⟨200, .obj [("success", .jbool true),
                         ("query", .str q),
                         ("results", .arr (results.map formatResult)),
                         ("total_results", .num results.length)]⟩) := rfl
    have hstep2 : search_documents m (some r) =
        (match m.similarity_search q (r.k.getD 5) (r.filter.getD .noFilter) with
         | .error e => ⟨500, .obj [("error", .str ("Search failed: " ++ e))]⟩
         | .ok results =>
           ⟨200, .obj [("success", .jbool true),
                       ("query", .str q),
                       ("results", .arr (results.map formatResult)),
                       ("total_results", .num results.length)]⟩) := by
      rw [hstep, hq]
    rw [hstep2, hsearch]
    refine ⟨rfl, rfl, ?_, ?_⟩
    · simp [getField, List.length_map]
    · rintro x hx
      rw [List.mem_map] at hx
      obtain ⟨p, hp, rfl⟩ := hx
      exact ⟨rfl, rfl, rfl⟩

/-- Witness for C8: missing body gives 400; a well-formed body on the
sample store gives 200 with a correct total_results. -/
theorem search_route_spec_witness :
    (search_documents mSample none).status = 400 ∧
    (search_documents mSample (some reqSearch)).status = 200 ∧
    getField (search_documents mSample (some reqSearch)).body "total_results" =
      some (.num (((similarity_search_with_score mSample "hello" (reqSearch.k.getD 5)
        (reqSearch.filter.getD .noFilter)).map formatResult).length)) := by
  refine ⟨(search_route_spec mSample none).1 (Or.inl rfl), ?_, ?_⟩
  · exact ((search_route_spec mSample (some reqSearch)).2 reqSearch "hello" rfl rfl rfl).1
  · exact ((search_route_spec mSample (some reqSearch)).2 reqSearch "hello" rfl rfl rfl).2.2.1

end LangchainPinecone
